import Mathlib

/-!
A verification development for the discburn-cli coordination core: the
manifest state machine (`src/core/iso-generator.ts` / `manifest`), the
priority polling executor (`src/core/executor.ts`, the executor module and
`automate.ts`), and the signal security gateway / codec
(`src/adapters/usb-signal.ts`, bundled in `fileStorage.ts`).

The TypeScript source is embedded shallowly: dynamic JSON payloads become
an inductive `JsValue`, JavaScript 32-bit integer arithmetic becomes `Int`
with an explicit wrap to the signed 32-bit range, `Date.now()` /
`new Date().toISOString()` become explicit `now` parameters, mutable module
state (the HELM config, the rate tracker, the executor state) becomes
explicit state passing, and `throw` becomes `Except.error`.
-/

namespace DiscBurn

/-! ## JSON values and `JSON.stringify`

Signal payloads are `any` in the source; we model them as JSON values.
Object fields are an ordered association list: `JSON.stringify` serializes
fields in insertion order, which is what the checksum hashes.  Strings in
this model are ASCII (every string the system builds is), so `charCodeAt`
is `Char.toNat`.
-/

inductive JsValue where
  | null : JsValue
  | bool : Bool → JsValue
  | num : Int → JsValue
  | str : String → JsValue
  | arr : List JsValue → JsValue
  | obj : List (String × JsValue) → JsValue

/-- JavaScript truthiness of a JSON value (`undefined` is modelled as
`null`; objects and arrays are always truthy). -/
def jsTruthy : JsValue → Bool
  | .null => false
  | .bool b => b
  | .num n => n ≠ 0
  | .str s => s ≠ ""
  | .arr _ => true
  | .obj _ => true

/-- `a || b` on JSON values. -/
def jsOr (a b : JsValue) : JsValue := if jsTruthy a then a else b

/-- Property access `v.k`: field lookup on objects, `undefined` (here
`null`) on everything else. -/
def jsField (v : JsValue) (k : String) : JsValue :=
  match v with
  | .obj fields =>
    match fields.find? (fun f => f.1 = k) with
    | some f => f.2
    | none => .null
  | _ => .null

/-- The opening brace character, written by code. -/
def lbrace : Char := Char.ofNat 123

/-- The closing brace character, written by code. -/
def rbrace : Char := Char.ofNat 125

mutual

/-- `JSON.stringify` (compact form, insertion-ordered object keys).  The
strings fed to it by this system contain no characters needing escapes
beyond the quote, which also never occurs; we serialize strings as
`"` ++ s ++ `"`. -/
def stringify : JsValue → String
  | .null => "null"
  | .bool b => if b then "true" else "false"
  | .num n => toString n
  | .str s => "\"" ++ s ++ "\""
  | .arr xs => "[" ++ stringifyArr xs ++ "]"
  | .obj fs => String.singleton lbrace ++ stringifyFields fs ++ String.singleton rbrace

def stringifyArr : List JsValue → String
  | [] => ""
  | [x] => stringify x
  | x :: xs => stringify x ++ "," ++ stringifyArr xs

def stringifyFields : List (String × JsValue) → String
  | [] => ""
  | [f] => "\"" ++ f.1 ++ "\":" ++ stringify f.2
  | f :: fs => "\"" ++ f.1 ++ "\":" ++ stringify f.2 ++ "," ++ stringifyFields fs

end

/-! ## The rolling hash (`generateChecksum`, `calculatePayloadChecksum`)

```ts
let hash = 0;
for (let i = 0; i < str.length; i++) {
  hash = ((hash << 5) - hash) + str.charCodeAt(i);
  hash = hash & hash;
}
```
`<<` and `&` operate on 32-bit signed integers in JavaScript; `hash & hash`
is exactly `ToInt32(hash)`.
-/

/-- JavaScript `ToInt32`: wrap an integer into `[-2^31, 2^31)`. -/
def toInt32 (n : Int) : Int :=
  let m := n.emod 4294967296
  if m < 2147483648 then m else m - 4294967296

/-- One step of the rolling hash: `((hash << 5) - hash) + c`, then
`hash & hash`. -/
def hashStep (hash : Int) (c : Nat) : Int :=
  toInt32 (toInt32 (hash * 32) - hash + (c : Int))

/-- The UTF-16 code units of an (ASCII) string. -/
def strCodes (s : String) : List Nat := s.data.map Char.toNat

/-- The whole rolling hash of a string. -/
def hashString (s : String) : Int := (strCodes s).foldl hashStep 0

/-- JavaScript `n.toString(16)` for a (32-bit) integer. -/
def jsToStringHex (n : Int) : String :=
  if n < 0 then "-" ++ (Nat.toDigits 16 n.natAbs).asString
  else (Nat.toDigits 16 n.natAbs).asString

/-- `generateChecksum(data)` from the usb-signal adapter:
`hash(JSON.stringify(data)).toString(16)`. -/
def generateChecksum (data : JsValue) : String :=
  jsToStringHex (hashString (stringify data))

/-! ## Signal envelopes (`SignalPacket`, `createSignal`) -/

inductive SignalType where
  | command : SignalType
  | status : SignalType
  | ack : SignalType
  | data : SignalType
deriving DecidableEq, Repr

inductive Direction where
  | outbound : Direction
  | inbound : Direction
deriving DecidableEq, Repr

structure SignalPacket where
  type : SignalType
  direction : Direction
  timestamp : Int
  payload : JsValue
  checksum : String
  source : Option String
  deviceId : Option String

/-- `createSignal(type, payload)`; `Date.now()` is the explicit `now`.  The
source sets no `source`/`deviceId` field on freshly created packets. -/
def createSignal (type : SignalType) (now : Int) (payload : JsValue) : SignalPacket :=
  { type := type
    direction := .outbound
    timestamp := now
    payload := payload
    checksum := generateChecksum payload
    source := none
    deviceId := none }

/-! ## The blocked-pattern regexes

The HELM block-list consists of eleven case-insensitive regexes built from
literals, `\s*`, `\s+` and `\w+` only.  We embed exactly that fragment: a
pattern is a token list, matched anywhere in the lower-cased subject
string, and each pattern carries its JavaScript display text (used in the
rejection reason, `BLOCKED: Script injection detected (${pattern})`). -/

inductive Tok where
  | lit : Char → Tok
  | wsStar : Tok
  | wsPlus : Tok
  | wordStar : Tok
  | wordPlus : Tok
deriving DecidableEq, Repr

/-- `\s` on the ASCII range. -/
def isWs (c : Char) : Bool :=
  c = ' ' ∨ c = '\t' ∨ c = '\n' ∨ c = '\r' ∨ c = Char.ofNat 11 ∨ c = Char.ofNat 12

/-- `\w` = `[A-Za-z0-9_]`. -/
def isWordChar (c : Char) : Bool := c.isAlphanum ∨ c = '_'

/-- Match a token list against a prefix of the character list (backtracking
where the quantified tokens allow it).  The recursion is driven by a fuel
counter so that it is structural (kernel-reducible); every recursive call
strictly decreases `toks.length + chars.length`, so the fuel
`matchesAt` supplies below is never exhausted and the `fuel = 0` branch is
unreachable. -/
def matchesAtF : Nat → List Tok → List Char → Bool
  | 0, _, _ => false
  | _ + 1, [], _ => true
  | _ + 1, .lit _ :: _, [] => false
  | f + 1, .lit c :: ts, d :: ds => d = c && matchesAtF f ts ds
  | f + 1, .wsStar :: ts, [] => matchesAtF f ts []
  | f + 1, .wsStar :: ts, d :: ds =>
    matchesAtF f ts (d :: ds) || (isWs d && matchesAtF f (.wsStar :: ts) ds)
  | _ + 1, .wsPlus :: _, [] => false
  | f + 1, .wsPlus :: ts, d :: ds => isWs d && matchesAtF f (.wsStar :: ts) ds
  | f + 1, .wordStar :: ts, [] => matchesAtF f ts []
  | f + 1, .wordStar :: ts, d :: ds =>
    matchesAtF f ts (d :: ds) || (isWordChar d && matchesAtF f (.wordStar :: ts) ds)
  | _ + 1, .wordPlus :: _, [] => false
  | f + 1, .wordPlus :: ts, d :: ds => isWordChar d && matchesAtF f (.wordStar :: ts) ds

def matchesAt (ts : List Tok) (ds : List Char) : Bool :=
  matchesAtF (ts.length + ds.length + 1) ts ds

/-- `pattern.test(str)`: match at some position of the lower-cased
subject. -/
def regexTestChars (toks : List Tok) : List Char → Bool
  | [] => matchesAt toks []
  | c :: cs => matchesAt toks (c :: cs) || regexTestChars toks cs

def regexTest (toks : List Tok) (s : String) : Bool :=
  regexTestChars toks (s.data.map Char.toLower)

/-- Literal characters of a pattern, as tokens (patterns are written
lower-case: all the HELM regexes carry the `i` flag). -/
def lits (s : String) : List Tok := s.data.map Tok.lit

/-- The eleven `HELM.blockedPatterns`, in source order, with their display
text. -/
def blockedPatterns : List (String × List Tok) :=
  [ ("/eval\\s*\\(/i", lits "eval" ++ [.wsStar, .lit '('])
  , ("/Function\\s*\\(/i", lits "function" ++ [.wsStar, .lit '('])
  , ("/<script/i", lits "<script")
  , ("/javascript:/i", lits "javascript:")
  , ("/on\\w+\\s*=/i", lits "on" ++ [.wordPlus, .wsStar, .lit '='])
  , ("/websocket/i", lits "websocket")
  , ("/ws:\\/\\//i", lits "ws://")
  , ("/wss:\\/\\//i", lits "wss://")
  , ("/new\\s+WebSocket/i", lits "new" ++ [.wsPlus] ++ lits "websocket")
  , ("/\\.connect\\s*\\(/i", lits ".connect" ++ [.wsStar, .lit '('])
  , ("/socket\\.io/i", lits "socket.io") ]

/-- The first blocked pattern matching the payload string, as its display
text (the `for … of HELM.blockedPatterns` loop returns on the first hit). -/
def firstBlockedPattern (payloadStr : String) : Option String :=
  (blockedPatterns.find? (fun p => regexTest p.2 payloadStr)).map (·.1)

/-- The `blockWebSockets` alternation
`/websocket|ws:\/\/|wss:\/\/|socket\.io/i`. -/
def websocketPatternTest (payloadStr : String) : Bool :=
  regexTest (lits "websocket") payloadStr ||
  regexTest (lits "ws://") payloadStr ||
  regexTest (lits "wss://") payloadStr ||
  regexTest (lits "socket.io") payloadStr

/-! ## The HELM security gateway (`validateSignalSecurity`)

The mutable module-level `HELM` object and `signalRateTracker` become an
explicit configuration value and a threaded tracker state; the several
`Date.now()` calls inside one validation (age check, window check, window
restart) become a single `now` parameter, which is faithful at the
millisecond granularity the checks use. -/

def ALLOWED_SOURCES : List String := ["dvd557s", "HP-DVD557s", "dvd557s_driver"]

structure HelmConfig where
  active : Bool
  blockWebSockets : Bool
  blockScriptInjection : Bool
  onlyDVD557s : Bool
  maxSignalAge : Int
  rateLimitPerMinute : Nat
deriving DecidableEq, Repr

/-- The initial `HELM` configuration from the source. -/
def HELM : HelmConfig :=
  { active := true
    blockWebSockets := true
    blockScriptInjection := true
    onlyDVD557s := true
    maxSignalAge := 30000
    rateLimitPerMinute := 60 }

/-- `deactivateHelm()` (the part that alters the policy). -/
def deactivateHelm (h : HelmConfig) : HelmConfig := { h with active := false }

/-- `activateHelm()`. -/
def activateHelm (h : HelmConfig) : HelmConfig := { h with active := true }

structure RateTracker where
  count : Nat
  resetTime : Int
deriving DecidableEq, Repr

structure SecurityResult where
  allowed : Bool
  reason : Option String
deriving DecidableEq, Repr

/-- An optional string field as a JavaScript value (an absent field is
`undefined`; both are falsy, so `null` models it for `||`). -/
def optStrVal : Option String → JsValue
  | some s => .str s
  | none => .null

/-- `ALLOWED_SOURCES.includes(v)`: array `includes` uses strict equality,
so non-string values never match. -/
def includesVal (l : List String) (v : JsValue) : Bool :=
  match v with
  | .str s => l.contains s
  | _ => false

/-- Check 1, source allow-list:
`const source = signal.source || signal.payload?.source || ''` (same for
`deviceId`), rejected when neither is in `ALLOWED_SOURCES`. -/
def sourceCheckRejects (helm : HelmConfig) (signal : SignalPacket) : Bool :=
  helm.onlyDVD557s &&
    (let source := jsOr (optStrVal signal.source)
        (jsOr (jsField signal.payload "source") (.str ""))
     let deviceId := jsOr (optStrVal signal.deviceId)
        (jsOr (jsField signal.payload "deviceId") (.str ""))
     !includesVal ALLOWED_SOURCES source && !includesVal ALLOWED_SOURCES deviceId)

/-- Check 2, freshness: `Date.now() - signal.timestamp > HELM.maxSignalAge`. -/
def signalTooOld (helm : HelmConfig) (now : Int) (signal : SignalPacket) : Bool :=
  now - signal.timestamp > helm.maxSignalAge

/-- The payload string the pattern checks scan:
`JSON.stringify(signal.payload || {})`. -/
def payloadString (signal : SignalPacket) : String :=
  stringify (jsOr signal.payload (.obj []))

/-- Check 5, integrity: the digest is recomputed and compared. -/
def checksumMismatch (signal : SignalPacket) : Bool :=
  signal.checksum ≠ generateChecksum signal.payload

/-- Check 3's tracker update: restart the window when it elapsed
(`count = 0`, `resetTime = now + 60000`), then `count++`. -/
def bumpTracker (tracker : RateTracker) (now : Int) : RateTracker :=
  let tracker1 : RateTracker :=
    if now > tracker.resetTime then { count := 0, resetTime := now + 60000 }
    else tracker
  { tracker1 with count := tracker1.count + 1 }

/-- `validateSignalSecurity(signal)`: the gateway.  Returns the decision
and the updated rate tracker; it is a total function — rejections are
values, never exceptions. -/
def validateSignalSecurity (helm : HelmConfig) (tracker : RateTracker) (now : Int)
    (signal : SignalPacket) : SecurityResult × RateTracker :=
  if !helm.active then ({ allowed := true, reason := none }, tracker)
  else if sourceCheckRejects helm signal then
    ({ allowed := false, reason := some "BLOCKED: Source not DVD557s" }, tracker)
  else if signalTooOld helm now signal then
    ({ allowed := false,
       reason := some "BLOCKED: Signal too old (replay attack prevention)" }, tracker)
  else
    let tracker2 : RateTracker := bumpTracker tracker now
    if tracker2.count > helm.rateLimitPerMinute then
      ({ allowed := false, reason := some "BLOCKED: Rate limit exceeded" }, tracker2)
    else if helm.blockScriptInjection &&
        (firstBlockedPattern (payloadString signal)).isSome then
      ({ allowed := false,
         reason := (firstBlockedPattern (payloadString signal)).map
           (fun p => "BLOCKED: Script injection detected (" ++ p ++ ")") }, tracker2)
    else if helm.blockWebSockets && websocketPatternTest (payloadString signal) then
      ({ allowed := false, reason := some "BLOCKED: WebSocket connection attempt" }, tracker2)
    else if checksumMismatch signal then
      ({ allowed := false,
         reason := some "BLOCKED: Invalid checksum (tampering detected)" }, tracker2)
    else ({ allowed := true, reason := none }, tracker2)

/-- Feed a list of `(now, signal)` arrivals through the gateway, threading
the rate tracker (the per-signal loop inside `receiveSignals`). -/
def runGateway (helm : HelmConfig) (tracker : RateTracker) :
    List (Int × SignalPacket) → List SecurityResult × RateTracker
  | [] => ([], tracker)
  | (now, signal) :: rest =>
    let step := validateSignalSecurity helm tracker now signal
    let others := runGateway helm step.2 rest
    (step.1 :: others.1, others.2)

/-! ## The manifest state machine (`manifest.ts` part of `iso-generator.ts`)

`JobStatus`, `VALID_TRANSITIONS`, `isValidTransition`, `createManifest`,
`transitionState`.  Manifest blocks never read or written by these
operations (the constant `target`/`notifications` blocks) are omitted;
every field the state machine touches is present.  Timestamps
(`new Date().toISOString()`) are explicit `now : String` parameters, and
the `throw` in `transitionState` is `Except.error`. -/

inductive JobStatus where
  | created : JobStatus
  | pending : JobStatus
  | queued : JobStatus
  | downloading : JobStatus
  | burning : JobStatus
  | verifying : JobStatus
  | complete : JobStatus
  | failed : JobStatus
  | cancelled : JobStatus
deriving DecidableEq, Repr

/-- The string of a `JobStatus` (its TypeScript string-literal value). -/
def JobStatus.asString : JobStatus → String
  | .created => "created"
  | .pending => "pending"
  | .queued => "queued"
  | .downloading => "downloading"
  | .burning => "burning"
  | .verifying => "verifying"
  | .complete => "complete"
  | .failed => "failed"
  | .cancelled => "cancelled"

inductive Priority where
  | low : Priority
  | normal : Priority
  | high : Priority
  | urgent : Priority
deriving DecidableEq, Repr

def VALID_TRANSITIONS : JobStatus → List JobStatus
  | .created => [.pending, .cancelled]
  | .pending => [.queued, .cancelled]
  | .queued => [.downloading, .cancelled]
  | .downloading => [.burning, .failed, .cancelled]
  | .burning => [.verifying, .failed, .cancelled]
  | .verifying => [.complete, .failed]
  | .complete => []
  | .failed => [.pending]
  | .cancelled => [.pending]

/-- `isValidTransition(from, to)` — `from` is a Lean keyword, hence
`from'`. -/
def isValidTransition (from' to' : JobStatus) : Bool :=
  (VALID_TRANSITIONS from').contains to'

structure StateTransition where
  from' : Option JobStatus
  to' : JobStatus
  timestamp : String
  actor : Option String
  reason : Option String
deriving DecidableEq, Repr

structure AuditEntry where
  timestamp : String
  action : String
  actor : String
  details : JsValue

structure ManifestJob where
  id : String
  created : String
  updated : String
  status : JobStatus
  priority : Priority

structure ManifestPayload where
  totalFiles : Nat
  totalSize : Nat
  checksum : String
  files : List String

structure Lifecycle where
  states : List StateTransition
  currentState : JobStatus
  retryCount : Nat
  maxRetries : Nat

structure ManifestAdmin where
  auditLog : List AuditEntry

structure BurnManifest where
  version : String
  job : ManifestJob
  payload : ManifestPayload
  lifecycle : Lifecycle
  admin : ManifestAdmin

def MANIFEST_VERSION : String := "2.0.0"

/-- `'0'.padStart` as used by `calculatePayloadChecksum`: left-pad with
zeros to 16 characters. -/
def padStart16 (s : String) : String :=
  String.mk (List.replicate (16 - s.length) '0') ++ s

/-- `calculatePayloadChecksum(files)`: sort the paths, join with newlines,
roll the 32-bit hash, render `sha256:` + `Math.abs(hash).toString(16)`
padded to 16. -/
def calculatePayloadChecksum (files : List String) : String :=
  let content := String.intercalate "\n" (files.insertionSort (fun a b => a ≤ b))
  "sha256:" ++ padStart16 (Nat.toDigits 16 (hashString content).natAbs).asString

structure CreateOptions where
  jobId : String
  files : List String
  priority : Option Priority

/-- `createManifest(options)` (the parts of the manifest the state machine
reads and writes). -/
def createManifest (options : CreateOptions) (now : String) : BurnManifest :=
  { version := MANIFEST_VERSION
    job :=
      { id := options.jobId
        created := now
        updated := now
        status := .created
        priority := options.priority.getD .normal }
    payload :=
      { totalFiles := options.files.length
        totalSize := 0
        checksum := calculatePayloadChecksum options.files
        files := options.files }
    lifecycle :=
      { states := [{ from' := none, to' := .created, timestamp := now
                     actor := some "system", reason := some "Job initialized" }]
        currentState := .created
        retryCount := 0
        maxRetries := 3 }
    admin :=
      { auditLog := [{ timestamp := now, action := "JOB_CREATED", actor := "system"
                       details := .obj [("fileCount", .num options.files.length)] }] } }

/-- The `details` object of the `STATE_TRANSITION` audit entry. -/
def transitionDetails (from' to' : JobStatus) (reason : Option String) : JsValue :=
  .obj [ ("from", .str from'.asString)
       , ("to", .str to'.asString)
       , ("reason", (reason.map JsValue.str).getD .null) ]

/-- `transitionState(manifest, newState, actor, reason)`; the thrown
`Error` becomes `Except.error` carrying the same message. -/
def transitionState (manifest : BurnManifest) (newState : JobStatus) (now : String)
    (actor : String) (reason : Option String) : Except String BurnManifest :=
  let previousState := manifest.lifecycle.currentState
  if !isValidTransition previousState newState then
    .error ("Invalid state transition: " ++ previousState.asString ++ " -> "
      ++ newState.asString)
  else
    .ok { manifest with
      lifecycle := { manifest.lifecycle with
        states := manifest.lifecycle.states ++
          [{ from' := some previousState, to' := newState, timestamp := now
             actor := some actor, reason := reason }]
        currentState := newState }
      job := { manifest.job with status := newState, updated := now }
      admin := { auditLog := manifest.admin.auditLog ++
        [{ timestamp := now, action := "STATE_TRANSITION", actor := actor
           details := transitionDetails previousState newState reason }] } }

/-! ## The priority polling executor (`executor.ts`, `automate.ts`)

`pollAndProcess` (executor) and `fetchPendingJobs` (automate) share the
same sort:

```ts
const priorityOrder = { urgent: 0, high: 1, normal: 2, low: 3 };
jobs.sort((a, b) => (priorityOrder[a.priority] || 2) - (priorityOrder[b.priority] || 2));
```

JavaScript `Array.prototype.sort` is stable and, with this comparator,
sorts ascending by the numeric key, which a stable `≤`-insertion sort
reproduces exactly.  Note the `|| 2`: the key `0` (urgent) is falsy in
JavaScript, so `priorityOrder['urgent'] || 2` evaluates to `2`, not
`0`. -/

/-- The `priorityOrder` lookup table. -/
def priorityOrder : Priority → Nat
  | .urgent => 0
  | .high => 1
  | .normal => 2
  | .low => 3

/-- The key actually compared: `priorityOrder[p] || 2`. -/
def jsPriorityKey (p : Priority) : Nat :=
  let v := priorityOrder p
  if v = 0 then 2 else v

/-- A job descriptor (`BurnJob` in both executors). -/
structure BurnJob where
  jobId : String
  status : JobStatus
  priority : Priority
  files : List String
  created : String
  retryCount : Nat
deriving DecidableEq, Repr

/-- The shared priority sort of the pending descriptors, in store order. -/
def sortJobs (jobs : List BurnJob) : List BurnJob :=
  jobs.insertionSort (fun a b => jsPriorityKey a.priority ≤ jsPriorityKey b.priority)

/-- `pollAndProcess` processes `jobs[0]` of the sorted list. -/
def selectJob (jobs : List BurnJob) : Option BurnJob :=
  (sortJobs jobs).head?

/-! ### `processJob` (the executor module)

Store and signal effects become an explicit write trace.  `updateJobStatus`
writes `status/<id>.json` and sends a matching status signal; we record it
as one `statusWrite`.  `syncToOneDriveAfterBurn` writes the completion
record to `completed/<id>.json` and a copy under `archive/<date>/`.
Store I/O is modelled as succeeding (the `catch` path of `processJob`
converts any thrown error into a `failed` status; cancellation, the
subject of C4, lives entirely on the non-throwing path). -/

inductive StoreWrite where
  | statusWrite : String → JobStatus → Nat → StoreWrite
  | burnCommand : String → StoreWrite
  | completedRecord : String → JobStatus → StoreWrite
  | archiveRecord : String → JobStatus → StoreWrite
  | deletePending : String → StoreWrite
deriving DecidableEq, Repr

/-- Strict string comparison with a payload field
(`s.payload?.action === 'cancel'` style). -/
def jsFieldEqStr (v : JsValue) (k s : String) : Bool :=
  match jsField v k with
  | .str t => t = s
  | _ => false

/-- The cancel-signal predicate of `processJob`. -/
def isCancelFor (jobId : String) (s : SignalPacket) : Bool :=
  jsFieldEqStr s.payload "action" "cancel" && jsFieldEqStr s.payload "jobId" jobId

/-- The progress values of the burn loop
(`for (let progress = 20; progress <= 90; progress += 10)`). -/
def progressSteps : List Nat := [20, 30, 40, 50, 60, 70, 80, 90]

/-- The burn-progress loop of `processJob`: writes a `burning` status, then
checks the validated inbound signals for a matching cancel; on a hit it
writes the `cancelled` status and the cancellation sync and stops.
`signalsAt p` is the list `receiveSignals()` returns at progress `p`
(already HELM-validated, as in the source). -/
def burnLoop (job : BurnJob) (signalsAt : Nat → List SignalPacket) :
    List Nat → List StoreWrite × Bool
  | [] => ([], false)
  | p :: rest =>
    let w1 := StoreWrite.statusWrite job.jobId .burning p
    match (signalsAt p).find? (isCancelFor job.jobId) with
    | some _ =>
      ([w1, .statusWrite job.jobId .cancelled p,
        .completedRecord job.jobId .cancelled, .archiveRecord job.jobId .cancelled], true)
    | none =>
      let rec_ := burnLoop job signalsAt rest
      (w1 :: rec_.1, rec_.2)

/-- `processJob(job)` on the non-throwing path: the write trace and the
final status of the job. -/
def processJob (job : BurnJob) (signalsAt : Nat → List SignalPacket) :
    List StoreWrite × JobStatus :=
  let pre : List StoreWrite :=
    [.statusWrite job.jobId .queued 0, .burnCommand job.jobId,
     .statusWrite job.jobId .burning 10]
  let loop := burnLoop job signalsAt progressSteps
  if loop.2 then (pre ++ loop.1, .cancelled)
  else
    (pre ++ loop.1 ++
      [.statusWrite job.jobId .verifying 95, .statusWrite job.jobId .complete 100,
       .completedRecord job.jobId .complete, .archiveRecord job.jobId .complete,
       .deletePending job.jobId], .complete)

/-- Does a write touch the `completed/` path? -/
def isCompletedWrite : StoreWrite → Bool
  | .completedRecord _ _ => true
  | _ => false

/-! ### The failed-job requeue of `executeAutomate` (`executor.ts`)

```ts
if (status.status === 'failed' && status.retryCount < 3) {
  await uploadToOneDrive(`pending/${status.jobId}.json`, JSON.stringify({
    ...status, status: 'pending', retryCount: (status.retryCount || 0) + 1, retriedAt ... }));
}
```
A status snapshot may lack `retryCount` (it is `undefined`); in JavaScript
`undefined < 3` is `false`. -/

structure StatusRecord where
  jobId : String
  status : String
  retryCount : Option Nat
  retriedAt : Option String
deriving DecidableEq, Repr

/-- JavaScript `x < n` where `x` may be `undefined`. -/
def jsLtUndef (x : Option Nat) (n : Nat) : Bool :=
  match x with
  | some v => v < n
  | none => false

/-- One status file of the `executeAutomate` retry scan: `some` rewritten
pending record when the job is requeued, `none` otherwise. -/
def requeueFailedJob (status : StatusRecord) (now : String) : Option StatusRecord :=
  if status.status = "failed" && jsLtUndef status.retryCount 3 then
    some { status with
      status := "pending"
      retryCount := some (status.retryCount.getD 0 + 1)
      retriedAt := some now }
  else none

/-! ### The automation loop (`automate.ts`)

`processNextJob` filters out jobs already processed and jobs whose
in-memory failure count reached `config.maxRetries`, takes the head of the
priority-sorted rest, burns it, and on failure bumps the count — archiving
the job as permanently failed (`syncCompletion(jobId, false)`) exactly when
the count reaches the bound.  `executeBurn`'s own status writes do not
matter to the retry claims and are summarized by the success oracle
`burnOK`. -/

structure AutoState where
  processedJobs : List String
  failedJobs : List (String × Nat)
deriving DecidableEq, Repr

/-- `failedJobs.get(id) || 0`. -/
def getFailCount (m : List (String × Nat)) (id : String) : Nat :=
  ((m.find? (fun e => e.1 = id)).map (fun e => e.2)).getD 0

/-- `failedJobs.set(id, n)`. -/
def setFailCount (m : List (String × Nat)) (id : String) (n : Nat) : List (String × Nat) :=
  if (m.find? (fun e => e.1 = id)).isSome then
    m.map (fun e => if e.1 = id then (id, n) else e)
  else m ++ [(id, n)]

/-- The eligibility filter of `processNextJob`. -/
def eligible (maxRetries : Nat) (st : AutoState) (j : BurnJob) : Bool :=
  !st.processedJobs.contains j.jobId &&
    getFailCount st.failedJobs j.jobId < maxRetries

/-- One pass of `processNextJob`: the new in-memory state, the selected
job id (if any), and the terminal-record writes performed this pass. -/
def processNextJob (maxRetries : Nat) (st : AutoState) (jobs : List BurnJob)
    (burnOK : String → Bool) : AutoState × Option String × List StoreWrite :=
  let pending := (sortJobs jobs).filter (eligible maxRetries st)
  match pending with
  | [] => (st, none, [])
  | job :: _ =>
    if burnOK job.jobId then
      ({ st with processedJobs := st.processedJobs ++ [job.jobId] }, some job.jobId,
        [.completedRecord job.jobId .complete, .archiveRecord job.jobId .complete,
         .deletePending job.jobId])
    else
      let retries := getFailCount st.failedJobs job.jobId + 1
      let st' : AutoState := { st with failedJobs := setFailCount st.failedJobs job.jobId retries }
      if retries ≥ maxRetries then
        (st', some job.jobId,
          [.completedRecord job.jobId .failed, .archiveRecord job.jobId .failed,
           .deletePending job.jobId])
      else (st', some job.jobId, [])

/-- The polling loop: each tick supplies the listed pending descriptors and
the burn outcome oracle; the trace records which job each pass selected. -/
def runAutomation (maxRetries : Nat) (st : AutoState) :
    List (List BurnJob × (String → Bool)) → List (Option String)
  | [] => []
  | (jobs, burnOK) :: rest =>
    let step := processNextJob maxRetries st jobs burnOK
    step.2.1 :: runAutomation maxRetries step.1 rest

/-! ## Fixtures: concrete inputs used by witnesses and counterexamples -/

/-- A pending-set listing with priorities `[low, urgent, normal, high]` in
store order — the spec's own priority-ordering test vector. -/
def C1jobs : List BurnJob :=
  [ { jobId := "j-low", status := .pending, priority := .low, files := [], created := "t0", retryCount := 0 }
  , { jobId := "j-urgent", status := .pending, priority := .urgent, files := [], created := "t1", retryCount := 0 }
  , { jobId := "j-normal", status := .pending, priority := .normal, files := [], created := "t2", retryCount := 0 }
  , { jobId := "j-high", status := .pending, priority := .high, files := [], created := "t3", retryCount := 0 } ]

/-- Two payloads that are equal up to object key ordering. -/
def C3fields1 : List (String × JsValue) := [("a", .num 1), ("b", .num 2)]

def C3fields2 : List (String × JsValue) := [("b", .num 2), ("a", .num 1)]

set_option maxRecDepth 4000

/-- A well-formed cancel payload naming job `J1` and the allow-listed
executor source. -/
def cancelPayload : JsValue :=
  .obj [("action", .str "cancel"), ("jobId", .str "J1"), ("source", .str "dvd557s")]

/-- The matching, correctly-digested cancel envelope. -/
def cancelSignal : SignalPacket :=
  { type := .command, direction := .inbound, timestamp := 1000
    payload := cancelPayload, checksum := generateChecksum cancelPayload
    source := some "dvd557s", deviceId := none }

/-- The spec scenario's job `J1` with `priority = high`. -/
def jobJ1 : BurnJob :=
  { jobId := "J1", status := .pending, priority := .high, files := ["a.txt"]
    created := "t0", retryCount := 0 }

/-- Deliver the cancel signal at the burn-progress check of step 40. -/
def cancelAt40 : Nat → List SignalPacket :=
  fun p => if p = 40 then [cancelSignal] else []

/-! ## C1 — priority ordering of the polling scheduler -/

/-- C1: the claim says the scheduler orders pending jobs
urgent < high < normal < low (stable) and, for store order
`[low, urgent, normal, high]`, selects urgent first.  The code computes the
sort key as `priorityOrder[a.priority] || 2`, and `priorityOrder['urgent']`
is `0`, which is falsy — so an urgent job is keyed `2`, the same as
`normal`.  Evaluating the embedded sort at the claim's own input: the order
comes out `[high, urgent, normal, low]` and the job selected first is the
high one, contradicting both the claim and the comment in the source
(`// Priority order: urgent > high > normal > low`).  This is the
code-bug evaluation theorem. -/
theorem C1_scheduler_priority_eval :
    jsPriorityKey .urgent = 2 ∧ jsPriorityKey .urgent = jsPriorityKey .normal ∧
    (sortJobs C1jobs).map (fun j => j.priority) =
      [.high, .urgent, .normal, .low] ∧
    (selectJob C1jobs).map (fun j => j.jobId) = some "j-high" := by
  decide

/-! ## C3 — integrity digest of the signal codec -/

/-- C3 counterexample: the claim asserts the digest is order-independent
because the payload is canonicalized before hashing.  There is no
canonicalization: `generateChecksum` hashes `JSON.stringify(payload)`,
which serializes object keys in insertion order.  The two payloads below
are equal up to key ordering (their field lists are permutations) yet hash
to different digests, refuting the order-independence conjunct of the
claim at a concrete input. -/
theorem C3_digest_order_dependent :
    (C3fields2.Perm C3fields1) ∧
    generateChecksum (.obj C3fields1) ≠ generateChecksum (.obj C3fields2) := by
  refine ⟨?_, by decide⟩
  have h : C3fields1.reverse = C3fields2 := rfl
  exact h ▸ List.reverse_perm C3fields1

/-- C3 amended: `verify(encode(type, payload))` does yield the allowed
outcome for the integrity check — the envelope's stored digest always
equals the recomputed one (`checksumMismatch` is the integrity stage of
`validateSignalSecurity`) — but the digest is computed over the
insertion-ordered `JSON.stringify` serialization with no canonicalization,
so payloads equal up to key order may digest differently (see the
counterexample). -/
theorem C3_encode_verify_integrity (t : SignalType) (now : Int) (p : JsValue) :
    checksumMismatch (createSignal t now p) = false := by
  simp [checksumMismatch, createSignal]

/-! ## C8 — freshness rejection -/

/-- C8: an envelope whose age `now - timestamp` exceeds the configured
maximum (default 30000 ms in `HELM`) is rejected with the "too old" reason
regardless of the later checks (rate limit, patterns, integrity) — the
freshness check short-circuits before any of them, and the rate counter is
not advanced.  The source allow-list check runs first, so the hypothesis
requires the envelope's source to pass (an envelope failing the allow-list
is rejected earlier with the source reason, consistent with the claim's
"every other check passing"). -/
theorem C8_stale_signal_rejected (tracker : RateTracker) (now : Int)
    (signal : SignalPacket)
    (hsrc : sourceCheckRejects HELM signal = false)
    (hold : now - signal.timestamp > 30000) :
    validateSignalSecurity HELM tracker now signal =
      ({ allowed := false
         reason := some "BLOCKED: Signal too old (replay attack prevention)" }, tracker) := by
  have hact : HELM.active = true := rfl
  have hstale : signalTooOld HELM now signal = true := by
    simpa [signalTooOld, HELM] using hold
  simp [validateSignalSecurity, hact, hsrc, hstale]

/-- C8 witness: the allow-listed cancel envelope (timestamp 1000), read
31001 ms later, is rejected as too old. -/
theorem C8_stale_signal_rejected_witness :
    validateSignalSecurity HELM { count := 0, resetTime := 61000 } 32001 cancelSignal =
      ({ allowed := false
         reason := some "BLOCKED: Signal too old (replay attack prevention)" },
       { count := 0, resetTime := 61000 }) :=
  C8_stale_signal_rejected _ _ _ (by decide) (by decide)

/-! ## C10 — deactivated gateway accepts everything -/

/-- C10: after `deactivateHelm`, `validateSignalSecurity` returns
`{allowed: true}` for every inbound envelope unconditionally: the function
returns on its first line, so the allow-list, freshness, rate-limit,
pattern and integrity checks are all skipped and the rate tracker is left
untouched — tampered, stale or foreign-source envelopes included. -/
theorem C10_inactive_helm_allows_all (h : HelmConfig) (tracker : RateTracker)
    (now : Int) (signal : SignalPacket) :
    validateSignalSecurity (deactivateHelm h) tracker now signal =
      ({ allowed := true, reason := none }, tracker) := by
  simp [validateSignalSecurity, deactivateHelm]

/-! ## C2 — `transitionState` succeeds exactly on the table, atomically -/

/-- The manifest `transitionState` produces on success:
exactly one transition record and one audit entry appended, `currentState`,
the `job.status` mirror and `job.updated` replaced, everything else kept. -/
def transitionedManifest (m : BurnManifest) (s : JobStatus) (now actor : String)
    (reason : Option String) : BurnManifest :=
  { version := m.version
    job := { m.job with status := s, updated := now }
    payload := m.payload
    lifecycle := { m.lifecycle with
      states := m.lifecycle.states ++
        [{ from' := some m.lifecycle.currentState, to' := s, timestamp := now
           actor := some actor, reason := reason }]
      currentState := s }
    admin := { auditLog := m.admin.auditLog ++
      [{ timestamp := now, action := "STATE_TRANSITION", actor := actor
         details := transitionDetails m.lifecycle.currentState s reason }] } }

/-- The success equation of `transitionState`, shared by the lifecycle
results below. -/
theorem transitionState_eq_ok (m : BurnManifest) (s : JobStatus)
    (now actor : String) (reason : Option String)
    (hv : isValidTransition m.lifecycle.currentState s = true) :
    transitionState m s now actor reason =
      .ok (transitionedManifest m s now actor reason) := by
  simp [transitionState, transitionedManifest, hv]

/-- The failure equation of `transitionState`. -/
theorem transitionState_eq_error (m : BurnManifest) (s : JobStatus)
    (now actor : String) (reason : Option String)
    (hv : isValidTransition m.lifecycle.currentState s = false) :
    transitionState m s now actor reason =
      .error ("Invalid state transition: " ++ m.lifecycle.currentState.asString
        ++ " -> " ++ s.asString) := by
  simp [transitionState, hv]

/-- C2: for every manifest and target state, `transitionState` succeeds if
and only if `(currentState, newState)` is in the §4.1 transition table
(`isValidTransition` reads exactly `VALID_TRANSITIONS`); on success the
result is `transitionedManifest` — one appended transition record, one
appended audit entry, updated `currentState` / status mirror /
last-modified stamp, all other fields untouched; on an invalid pair it
fails with the `Invalid state transition` error.  In the source the throw
precedes every mutation, so a failed call leaves the manifest object
unmodified; in this pure embedding the failure case returns only the
error, so atomic failure holds by construction. -/
theorem C2_transitionState_table_atomic (m : BurnManifest) (s : JobStatus)
    (now actor : String) (reason : Option String) :
    (isValidTransition m.lifecycle.currentState s = true →
      transitionState m s now actor reason =
        .ok (transitionedManifest m s now actor reason)) ∧
    (isValidTransition m.lifecycle.currentState s = false →
      transitionState m s now actor reason =
        .error ("Invalid state transition: " ++ m.lifecycle.currentState.asString
          ++ " -> " ++ s.asString)) :=
  ⟨transitionState_eq_ok m s now actor reason,
   transitionState_eq_error m s now actor reason⟩

/-- C2 witness: on a freshly created manifest (state `created`),
transitioning to `pending` succeeds and transitioning to `burning` fails
with the `InvalidTransition` error. -/
theorem C2_transitionState_table_atomic_witness :
    (transitionState (createManifest { jobId := "J1", files := [], priority := none } "T0")
        .pending "T1" "executor" none =
      .ok (transitionedManifest
        (createManifest { jobId := "J1", files := [], priority := none } "T0")
        .pending "T1" "executor" none)) ∧
    (transitionState (createManifest { jobId := "J1", files := [], priority := none } "T0")
        .burning "T1" "executor" none =
      .error "Invalid state transition: created -> burning") := by
  constructor
  · exact (C2_transitionState_table_atomic _ .pending "T1" "executor" none).1 (by decide)
  · exact (C2_transitionState_table_atomic _ .burning "T1" "executor" none).2 (by decide)

/-! ## C9 — lifecycle invariants -/

/-- The `to` field of the last transition record, if any. -/
def lastTransitionTo (m : BurnManifest) : Option JobStatus :=
  m.lifecycle.states.getLast?.map (fun r => r.to')

/-- C9: `createManifest` establishes the invariant `currentState = to` of
the last transition record, and every successful `transitionState` call
re-establishes it while only ever appending to the history: the new state
list is the old one with exactly one record added at the end, so no
existing record is edited or removed (`createManifest` and
`transitionState` are the only operations that touch
`lifecycle.states`). -/
theorem C9_lifecycle_invariants :
    (∀ (options : CreateOptions) (now : String),
      lastTransitionTo (createManifest options now) =
        some (createManifest options now).lifecycle.currentState) ∧
    (∀ (m : BurnManifest) (s : JobStatus) (now actor : String)
        (reason : Option String) (m' : BurnManifest),
      transitionState m s now actor reason = .ok m' →
      lastTransitionTo m' = some m'.lifecycle.currentState ∧
      m'.lifecycle.states = m.lifecycle.states ++
        [{ from' := some m.lifecycle.currentState, to' := s, timestamp := now
           actor := some actor, reason := reason }]) := by
  constructor
  · intro options now
    simp [lastTransitionTo, createManifest]
  · intro m s now actor reason m' h
    by_cases hv : isValidTransition m.lifecycle.currentState s = true
    · have := transitionState_eq_ok m s now actor reason hv
      rw [this] at h
      cases h
      constructor
      · simp [lastTransitionTo, transitionedManifest]
      · simp [transitionedManifest]
    · have hvf : isValidTransition m.lifecycle.currentState s = false := by
        simpa using hv
      have := transitionState_eq_error m s now actor reason hvf
      rw [this] at h
      cases h

/-- C9 witness: the invariant instance on a concrete manifest after a
successful `created → pending` transition. -/
theorem C9_lifecycle_invariants_witness :
    lastTransitionTo
        (transitionedManifest
          (createManifest { jobId := "J9", files := [], priority := none } "T0")
          .pending "T1" "system" none) =
      some JobStatus.pending ∧
    (transitionedManifest
        (createManifest { jobId := "J9", files := [], priority := none } "T0")
        .pending "T1" "system" none).lifecycle.states =
      (createManifest { jobId := "J9", files := [], priority := none } "T0").lifecycle.states ++
        [{ from' := some .created, to' := .pending, timestamp := "T1"
           actor := some "system", reason := none }] := by
  have h := C9_lifecycle_invariants.2
    (createManifest { jobId := "J9", files := [], priority := none } "T0")
    .pending "T1" "system" none
    (transitionedManifest
      (createManifest { jobId := "J9", files := [], priority := none } "T0")
      .pending "T1" "system" none)
    (transitionState_eq_ok _ .pending "T1" "system" none (by decide))
  exact h

/-! ## C6 — fixed evaluation order of the gateway checks -/

/-- C6: for every inbound envelope, an active gateway evaluates its checks
in the fixed order source allow-list, freshness, rate limit, content
pattern block-list (the script-injection list, then the WebSocket
alternation), integrity digest; the first failing check produces the
result — a structured `{allowed: false, reason}` value (the last conjunct:
a rejection always carries a reason; the gateway is a total function, so it
never throws).  Each stage is stated against its independently defined
check (`sourceCheckRejects`, `signalTooOld`, `bumpTracker`,
`firstBlockedPattern`, `websocketPatternTest`, `checksumMismatch`), also
pinning which rejections advance the rate counter: the source and
freshness rejections leave the tracker untouched, every later stage has
already counted the signal. -/
theorem C6_gateway_check_order (helm : HelmConfig) (tracker : RateTracker)
    (now : Int) (signal : SignalPacket) (hact : helm.active = true) :
    (sourceCheckRejects helm signal = true →
      validateSignalSecurity helm tracker now signal =
        ({ allowed := false, reason := some "BLOCKED: Source not DVD557s" }, tracker)) ∧
    (sourceCheckRejects helm signal = false →
     signalTooOld helm now signal = true →
      validateSignalSecurity helm tracker now signal =
        ({ allowed := false
           reason := some "BLOCKED: Signal too old (replay attack prevention)" }, tracker)) ∧
    (sourceCheckRejects helm signal = false →
     signalTooOld helm now signal = false →
     (bumpTracker tracker now).count > helm.rateLimitPerMinute →
      validateSignalSecurity helm tracker now signal =
        ({ allowed := false, reason := some "BLOCKED: Rate limit exceeded" },
         bumpTracker tracker now)) ∧
    (∀ d, sourceCheckRejects helm signal = false →
     signalTooOld helm now signal = false →
     (bumpTracker tracker now).count ≤ helm.rateLimitPerMinute →
     helm.blockScriptInjection = true →
     firstBlockedPattern (payloadString signal) = some d →
      validateSignalSecurity helm tracker now signal =
        ({ allowed := false
           reason := some ("BLOCKED: Script injection detected (" ++ d ++ ")") },
         bumpTracker tracker now)) ∧
    (sourceCheckRejects helm signal = false →
     signalTooOld helm now signal = false →
     (bumpTracker tracker now).count ≤ helm.rateLimitPerMinute →
     (helm.blockScriptInjection && (firstBlockedPattern (payloadString signal)).isSome) = false →
     helm.blockWebSockets = true →
     websocketPatternTest (payloadString signal) = true →
      validateSignalSecurity helm tracker now signal =
        ({ allowed := false, reason := some "BLOCKED: WebSocket connection attempt" },
         bumpTracker tracker now)) ∧
    (sourceCheckRejects helm signal = false →
     signalTooOld helm now signal = false →
     (bumpTracker tracker now).count ≤ helm.rateLimitPerMinute →
     (helm.blockScriptInjection && (firstBlockedPattern (payloadString signal)).isSome) = false →
     (helm.blockWebSockets && websocketPatternTest (payloadString signal)) = false →
     checksumMismatch signal = true →
      validateSignalSecurity helm tracker now signal =
        ({ allowed := false, reason := some "BLOCKED: Invalid checksum (tampering detected)" },
         bumpTracker tracker now)) ∧
    (sourceCheckRejects helm signal = false →
     signalTooOld helm now signal = false →
     (bumpTracker tracker now).count ≤ helm.rateLimitPerMinute →
     (helm.blockScriptInjection && (firstBlockedPattern (payloadString signal)).isSome) = false →
     (helm.blockWebSockets && websocketPatternTest (payloadString signal)) = false →
     checksumMismatch signal = false →
      validateSignalSecurity helm tracker now signal =
        ({ allowed := true, reason := none }, bumpTracker tracker now)) ∧
    (∀ (res : SecurityResult) (tracker' : RateTracker),
      validateSignalSecurity helm tracker now signal = (res, tracker') →
      res.allowed = false → res.reason.isSome = true) := by
  refine ⟨?_, ?_, ?_, ?_, ?_, ?_, ?_, ?_⟩
  · intro h1
    simp [validateSignalSecurity, hact, h1]
  · intro h1 h2
    simp [validateSignalSecurity, hact, h1, h2]
  · intro h1 h2 h3
    simp [validateSignalSecurity, hact, h1, h2, h3]
  · intro d h1 h2 h3 h4 h5
    have h3' : ¬ ((bumpTracker tracker now).count > helm.rateLimitPerMinute) := by omega
    simp [validateSignalSecurity, hact, h1, h2, h3', h4, h5]
  · intro h1 h2 h3 h4 h5 h6
    have h3' : ¬ ((bumpTracker tracker now).count > helm.rateLimitPerMinute) := by omega
    simp [validateSignalSecurity, hact, h1, h2, h3', h4, h5, h6]
  · intro h1 h2 h3 h4 h5 h6
    have h3' : ¬ ((bumpTracker tracker now).count > helm.rateLimitPerMinute) := by omega
    simp [validateSignalSecurity, hact, h1, h2, h3', h4, h5, h6]
  · intro h1 h2 h3 h4 h5 h6
    have h3' : ¬ ((bumpTracker tracker now).count > helm.rateLimitPerMinute) := by omega
    simp [validateSignalSecurity, hact, h1, h2, h3', h4, h5, h6]
  · intro res tracker' heq hfalse
    unfold validateSignalSecurity at heq
    simp only [hact, Bool.not_true, Bool.false_eq_true, if_false] at heq
    repeat' split at heq
    all_goals (cases heq; simp_all)

/-- C6 witness: under the default `HELM`, an envelope from an unknown
source is rejected by the first check with the source reason and the
tracker untouched. -/
theorem C6_gateway_check_order_witness :
    validateSignalSecurity HELM { count := 5, resetTime := 61000 } 1500
        { type := .command, direction := .inbound, timestamp := 1000
          payload := .obj [("action", .str "probe")]
          checksum := generateChecksum (.obj [("action", .str "probe")])
          source := some "intruder", deviceId := none } =
      ({ allowed := false, reason := some "BLOCKED: Source not DVD557s" },
       { count := 5, resetTime := 61000 }) :=
  (C6_gateway_check_order HELM { count := 5, resetTime := 61000 } 1500
    { type := .command, direction := .inbound, timestamp := 1000
      payload := .obj [("action", .str "probe")]
      checksum := generateChecksum (.obj [("action", .str "probe")])
      source := some "intruder", deviceId := none } (by decide)).1 (by decide)

/-! ## C7 — the rolling one-minute rate limit -/

/-- An envelope that passes every check other than the rate limit under the
default `HELM` ("otherwise valid"): allow-listed source, fresh, no blocked
pattern, intact digest. -/
def passesStaticChecks (helm : HelmConfig) (now : Int) (sig : SignalPacket) : Bool :=
  !sourceCheckRejects helm sig && !signalTooOld helm now sig &&
    !(firstBlockedPattern (payloadString sig)).isSome &&
    !websocketPatternTest (payloadString sig) && !checksumMismatch sig

/-- One gateway evaluation of an otherwise-valid envelope inside the
current window (`now ≤ resetTime`): the counter advances by one and the
decision is exactly the counter test. -/
theorem validate_valid_step (tr : RateTracker) (now : Int) (sig : SignalPacket)
    (hv : passesStaticChecks HELM now sig = true) (hw : now ≤ tr.resetTime) :
    validateSignalSecurity HELM tr now sig =
      ((if tr.count + 1 > 60 then
          { allowed := false, reason := some "BLOCKED: Rate limit exceeded" }
        else { allowed := true, reason := none }),
       { count := tr.count + 1, resetTime := tr.resetTime }) := by
  simp only [passesStaticChecks, Bool.and_eq_true, Bool.not_eq_true'] at hv
  obtain ⟨⟨⟨⟨h1, h2⟩, h3⟩, h4⟩, h5⟩ := hv
  have hbump : bumpTracker tr now = { count := tr.count + 1, resetTime := tr.resetTime } := by
    have hno : ¬ (now > tr.resetTime) := by omega
    simp [bumpTracker, hno]
  have hact : HELM.active = true := rfl
  have hbsi : HELM.blockScriptInjection = true := rfl
  have hbws : HELM.blockWebSockets = true := rfl
  have hlim : HELM.rateLimitPerMinute = 60 := rfl
  unfold validateSignalSecurity
  simp [hact, h1, h2, h3, h4, h5, hbsi, hbws, hlim, hbump]
  split <;> simp [*]

/-- One gateway evaluation of an otherwise-valid envelope after the window
elapsed (`now > resetTime`): the counter restarts at zero, counts this
envelope, and allows it. -/
theorem validate_reset_step (tr : RateTracker) (now : Int) (sig : SignalPacket)
    (hv : passesStaticChecks HELM now sig = true) (hw : now > tr.resetTime) :
    validateSignalSecurity HELM tr now sig =
      ({ allowed := true, reason := none }, { count := 1, resetTime := now + 60000 }) := by
  simp only [passesStaticChecks, Bool.and_eq_true, Bool.not_eq_true'] at hv
  obtain ⟨⟨⟨⟨h1, h2⟩, h3⟩, h4⟩, h5⟩ := hv
  have hbump : bumpTracker tr now = { count := 1, resetTime := now + 60000 } := by
    simp [bumpTracker, hw]
  have hact : HELM.active = true := rfl
  have hlim : HELM.rateLimitPerMinute = 60 := rfl
  unfold validateSignalSecurity
  simp [hact, h1, h2, h3, h4, h5, hbump, hlim]

/-- `runGateway` distributes over list append, threading the tracker. -/
theorem runGateway_append (helm : HelmConfig) (tr : RateTracker)
    (l1 l2 : List (Int × SignalPacket)) :
    runGateway helm tr (l1 ++ l2) =
      ((runGateway helm tr l1).1 ++ (runGateway helm (runGateway helm tr l1).2 l2).1,
       (runGateway helm (runGateway helm tr l1).2 l2).2) := by
  induction l1 generalizing tr with
  | nil => simp [runGateway]
  | cons a l ih =>
    obtain ⟨n, s⟩ := a
    simp [runGateway, ih]

/-- A burst of otherwise-valid envelopes inside the window from counter
value `c`: while `c + n` stays within the limit every envelope is allowed
and the counter ends at `c + n`. -/
theorem runGateway_replicate_ok (sig : SignalPacket) (now r : Int) (n c : Nat)
    (hv : passesStaticChecks HELM now sig = true) (hw : now ≤ r)
    (hn : c + n ≤ 60) :
    runGateway HELM { count := c, resetTime := r } (List.replicate n (now, sig)) =
      (List.replicate n { allowed := true, reason := none },
       { count := c + n, resetTime := r }) := by
  induction n generalizing c with
  | zero => simp [runGateway]
  | succ k ih =>
    rw [List.replicate_succ]
    have hstep := validate_valid_step { count := c, resetTime := r } now sig hv hw
    have hc : ¬ (c + 1 > 60) := by omega
    simp only [runGateway, hstep, hc, if_false, ite_false]
    rw [ih (c + 1) (by omega)]
    simp [List.replicate_succ]
    omega

/-- C7: starting a fresh window (`count = 0`, reset time `r`, arrivals at
`now ≤ r`), submitting `rateLimitPerMinute + 1` (61) otherwise-valid
envelopes inside the window allows the first 60 and rejects exactly the
last with the rate-limit reason (the rejected envelope is still counted);
and once the window elapses (`now' > r`), the counter restarts at zero, so
the next otherwise-valid envelope is allowed again with the counter at
1. -/
theorem C7_rate_limit_window (sig : SignalPacket) (now r : Int)
    (hv : passesStaticChecks HELM now sig = true) (hw : now ≤ r) :
    runGateway HELM { count := 0, resetTime := r }
        (List.replicate (HELM.rateLimitPerMinute + 1) (now, sig)) =
      (List.replicate HELM.rateLimitPerMinute { allowed := true, reason := none } ++
         [{ allowed := false, reason := some "BLOCKED: Rate limit exceeded" }],
       { count := HELM.rateLimitPerMinute + 1, resetTime := r }) ∧
    (∀ (sig' : SignalPacket) (now' : Int),
      passesStaticChecks HELM now' sig' = true → now' > r →
      validateSignalSecurity HELM
          { count := HELM.rateLimitPerMinute + 1, resetTime := r } now' sig' =
        ({ allowed := true, reason := none },
         { count := 1, resetTime := now' + 60000 })) := by
  constructor
  · have hsplit : List.replicate (HELM.rateLimitPerMinute + 1) ((now, sig)) =
        List.replicate 60 ((now, sig)) ++ [(now, sig)] := by
      rw [show HELM.rateLimitPerMinute = 60 from rfl, List.replicate_succ']
    rw [hsplit, runGateway_append,
      runGateway_replicate_ok sig now r 60 0 hv hw (by omega)]
    have hstep := validate_valid_step { count := 60, resetTime := r } now sig hv hw
    have h61 : (60 : Nat) + 1 > 60 := by omega
    simp only [runGateway, hstep, h61, if_true]
    simp [show HELM.rateLimitPerMinute = 60 from rfl]
  · intro sig' now' hv' hw'
    exact validate_reset_step _ now' sig' hv' hw'

/-- C7 witness: the concrete allow-listed cancel envelope, submitted 61
times at `now = 1000` in a window resetting at 60000: sixty allows then
one rate-limit rejection; an envelope arriving at 70000 (after the window)
is allowed again with the counter restarted. -/
theorem C7_rate_limit_window_witness :
    runGateway HELM { count := 0, resetTime := 60000 }
        (List.replicate (HELM.rateLimitPerMinute + 1) (1000, cancelSignal)) =
      (List.replicate HELM.rateLimitPerMinute { allowed := true, reason := none } ++
         [{ allowed := false, reason := some "BLOCKED: Rate limit exceeded" }],
       { count := HELM.rateLimitPerMinute + 1, resetTime := 60000 }) ∧
    validateSignalSecurity HELM
        { count := HELM.rateLimitPerMinute + 1, resetTime := 60000 } 70000
        { cancelSignal with timestamp := 69999 } =
      ({ allowed := true, reason := none }, { count := 1, resetTime := 130000 }) := by
  have h := C7_rate_limit_window cancelSignal 1000 60000 (by decide) (by decide)
  exact ⟨h.1, h.2 { cancelSignal with timestamp := 69999 } 70000 (by decide) (by decide)⟩

/-! ## C4 — cancellation during the burning phase -/

/-- If some progress step of the burn loop sees a matching cancel signal,
the loop reports cancellation and its trace is some `burning` status
writes followed by exactly the cancellation tail: the `cancelled` status
write, the `completed/` record and the `archive/` copy — nothing runs
after the cancellation (the source `return`s). -/
theorem burnLoop_cancel (job : BurnJob) (sa : Nat → List SignalPacket) :
    ∀ steps : List Nat,
      (∃ p ∈ steps, ((sa p).find? (isCancelFor job.jobId)).isSome) →
      (burnLoop job sa steps).2 = true ∧
      ∃ p l, (burnLoop job sa steps).1 =
          l ++ [.statusWrite job.jobId .cancelled p,
                .completedRecord job.jobId .cancelled,
                .archiveRecord job.jobId .cancelled] ∧
        ∀ w ∈ l, ∃ q, w = StoreWrite.statusWrite job.jobId .burning q := by
  intro steps
  induction steps with
  | nil =>
    rintro ⟨p, hp, _⟩
    cases hp
  | cons s rest ih =>
    rintro ⟨p, hp, hfind⟩
    by_cases hs : ((sa s).find? (isCancelFor job.jobId)).isSome
    · obtain ⟨sig, hsig⟩ := Option.isSome_iff_exists.mp hs
      refine ⟨?_, s, [.statusWrite job.jobId .burning s], ?_, ?_⟩
      · simp [burnLoop, hsig]
      · simp [burnLoop, hsig]
      · intro w hw
        simp at hw
        exact ⟨s, hw⟩
    · have hnone : ((sa s).find? (isCancelFor job.jobId)) = none :=
        Option.not_isSome_iff_eq_none.mp hs
      have hrest : ∃ p ∈ rest, ((sa p).find? (isCancelFor job.jobId)).isSome := by
        rcases List.mem_cons.mp hp with h | h
        · exact absurd (h ▸ hfind) hs
        · exact ⟨p, h, hfind⟩
      obtain ⟨h2, p', l', heq, hl⟩ := ih hrest
      refine ⟨?_, p', .statusWrite job.jobId .burning s :: l', ?_, ?_⟩
      · simp [burnLoop, hnone, h2]
      · simp [burnLoop, hnone, heq]
      · intro w hw
        rcases List.mem_cons.mp hw with h | h
        · exact ⟨s, h⟩
        · exact hl w h

/-- C4 counterexample: the spec scenario itself — job `J1`
(`priority = high`), a source-valid, correctly-digested cancel signal for
`J1` delivered at the progress-40 check.  The gateway allows the signal,
the job ends `cancelled` … and the run writes
`completed/J1.json` (with status `cancelled`): the claim's frame condition
"the store's completed path is left unchanged" is false —
`syncToOneDriveAfterBurn(jobId, 'cancelled')` uploads a completion record
for cancelled jobs too. -/
theorem C4_completed_path_written :
    (validateSignalSecurity HELM { count := 0, resetTime := 61000 } 1500 cancelSignal).1 =
      { allowed := true, reason := none } ∧
    (processJob jobJ1 cancelAt40).2 = .cancelled ∧
    (processJob jobJ1 cancelAt40).1.filter isCompletedWrite =
      [.completedRecord "J1" .cancelled] := by
  decide

/-- C4 amended: when a validated cancel signal with a matching `jobId`
arrives during the burning phase, the executor transitions the job to
`cancelled`, persists that status, and stops immediately: the whole trace
is the fixed prefix (queued status, burn command, burning statuses), then
the `cancelled` status, the `completed/` record and `archive/` copy with
status `cancelled`, and nothing after.  No completion is produced: no
`complete` status signal, no `completed/` record with status `complete`,
and the pending descriptor is not deleted.  However — contrary to the
original claim — the `completed/` path is written: it receives the
terminal record with status `cancelled`. -/
theorem C4_cancel_mid_burn (job : BurnJob) (signalsAt : Nat → List SignalPacket)
    (hc : ∃ p ∈ progressSteps, ((signalsAt p).find? (isCancelFor job.jobId)).isSome) :
    (processJob job signalsAt).2 = .cancelled ∧
    (∃ p l, (processJob job signalsAt).1 =
        ([.statusWrite job.jobId .queued 0, .burnCommand job.jobId,
          .statusWrite job.jobId .burning 10] ++ l) ++
          [.statusWrite job.jobId .cancelled p,
           .completedRecord job.jobId .cancelled,
           .archiveRecord job.jobId .cancelled] ∧
      ∀ w ∈ l, ∃ q, w = StoreWrite.statusWrite job.jobId .burning q) ∧
    StoreWrite.statusWrite job.jobId .complete 100 ∉ (processJob job signalsAt).1 ∧
    StoreWrite.completedRecord job.jobId .complete ∉ (processJob job signalsAt).1 ∧
    StoreWrite.deletePending job.jobId ∉ (processJob job signalsAt).1 := by
  obtain ⟨h2, p, l, heq, hl⟩ := burnLoop_cancel job signalsAt progressSteps hc
  have hpj : processJob job signalsAt =
      ([.statusWrite job.jobId .queued 0, .burnCommand job.jobId,
        .statusWrite job.jobId .burning 10] ++ (burnLoop job signalsAt progressSteps).1,
       .cancelled) := by
    simp [processJob, h2]
  refine ⟨by simp [hpj], ⟨p, l, ?_, hl⟩, ?_, ?_, ?_⟩
  · simp [hpj, heq]
  all_goals
    simp only [hpj]
    rw [heq]
    intro hmem
    rcases List.mem_append.mp hmem with h | h
    · simp at h
    · rcases List.mem_append.mp h with h | h
      · obtain ⟨q, hq⟩ := hl _ h
        simp at hq
      · simp at h

/-- C4 witness: the amended theorem applied to the concrete scenario
(`J1`, cancel at progress 40). -/
theorem C4_cancel_mid_burn_witness :
    (processJob jobJ1 cancelAt40).2 = .cancelled ∧
    (∃ p l, (processJob jobJ1 cancelAt40).1 =
        ([.statusWrite jobJ1.jobId .queued 0, .burnCommand jobJ1.jobId,
          .statusWrite jobJ1.jobId .burning 10] ++ l) ++
          [.statusWrite jobJ1.jobId .cancelled p,
           .completedRecord jobJ1.jobId .cancelled,
           .archiveRecord jobJ1.jobId .cancelled] ∧
      ∀ w ∈ l, ∃ q, w = StoreWrite.statusWrite jobJ1.jobId .burning q) ∧
    StoreWrite.statusWrite jobJ1.jobId .complete 100 ∉ (processJob jobJ1 cancelAt40).1 ∧
    StoreWrite.completedRecord jobJ1.jobId .complete ∉ (processJob jobJ1 cancelAt40).1 ∧
    StoreWrite.deletePending jobJ1.jobId ∉ (processJob jobJ1 cancelAt40).1 :=
  C4_cancel_mid_burn jobJ1 cancelAt40 (by decide)

/-! ## C5 — the bounded retry policy -/

/-- `find?` for the updated key after `Map.set`'s overwrite pass. -/
theorem find?_map_set_self (m : List (String × Nat)) (id : String) (n : Nat) :
    List.find? (fun e => e.1 = id) (m.map (fun e => if e.1 = id then (id, n) else e)) =
      (m.find? (fun e => e.1 = id)).map (fun _ => (id, n)) := by
  induction m with
  | nil => rfl
  | cons e rest ih =>
    by_cases he : e.1 = id
    · simp [List.find?_cons, he]
    · simp [List.find?_cons, he, ih]

/-- `find?` for any other key after the overwrite pass. -/
theorem find?_map_set_ne (m : List (String × Nat)) (id j : String) (n : Nat)
    (hne : j ≠ id) :
    List.find? (fun e => e.1 = j) (m.map (fun e => if e.1 = id then (id, n) else e)) =
      m.find? (fun e => e.1 = j) := by
  induction m with
  | nil => rfl
  | cons e rest ih =>
    by_cases he : e.1 = id
    · have hej : ¬ (e.1 = j) := by
        rw [he]
        exact Ne.symm hne
      simp [List.find?_cons, he, hej, Ne.symm hne, ih]
    · by_cases hej : e.1 = j
      · simp [List.find?_cons, he, hej, hne]
      · simp [List.find?_cons, he, hej, ih]

/-- Updating a job's failure count stores that count. -/
theorem getFailCount_set_self (m : List (String × Nat)) (id : String) (n : Nat) :
    getFailCount (setFailCount m id n) id = n := by
  unfold setFailCount getFailCount
  by_cases h : (m.find? (fun e => e.1 = id)).isSome
  · obtain ⟨e0, he0⟩ := Option.isSome_iff_exists.mp h
    rw [if_pos h, find?_map_set_self, he0]
    rfl
  · have hnone : m.find? (fun e => e.1 = id) = none :=
      Option.not_isSome_iff_eq_none.mp h
    rw [if_neg h, List.find?_append, hnone]
    simp

/-- Updating one job's failure count leaves every other count alone. -/
theorem getFailCount_set_ne (m : List (String × Nat)) (id j : String) (n : Nat)
    (hne : j ≠ id) :
    getFailCount (setFailCount m id n) j = getFailCount m j := by
  unfold setFailCount getFailCount
  by_cases h : (m.find? (fun e => e.1 = id)).isSome
  · rw [if_pos h, find?_map_set_ne m id j n hne]
  · rw [if_neg h, List.find?_append]
    simp [List.find?_cons, Ne.symm hne, hne]

/-- Whenever the eligibility filter is non-empty, the pass selects exactly
its head's job id (on the success and on both failure branches). -/
theorem processNextJob_sel (mr : Nat) (st : AutoState) (jobs : List BurnJob)
    (burnOK : String → Bool) (job : BurnJob) (rest : List BurnJob)
    (hl : (sortJobs jobs).filter (eligible mr st) = job :: rest) :
    (processNextJob mr st jobs burnOK).2.1 = some job.jobId := by
  unfold processNextJob
  rw [hl]
  by_cases hok : burnOK job.jobId = true
  · simp [hok]
  · simp only [Bool.not_eq_true] at hok
    simp only [hok, Bool.false_eq_true, if_false]
    split <;> rfl

/-- One automation pass never decreases any job's failure count. -/
theorem processNextJob_fail_mono (mr : Nat) (st : AutoState) (jobs : List BurnJob)
    (burnOK : String → Bool) (j : String) :
    getFailCount st.failedJobs j ≤
      getFailCount (processNextJob mr st jobs burnOK).1.failedJobs j := by
  unfold processNextJob
  cases hl : (sortJobs jobs).filter (eligible mr st) with
  | nil => simp
  | cons job rest =>
    by_cases hok : burnOK job.jobId = true
    · simp [hok]
    · simp only [Bool.not_eq_true] at hok
      simp only [hok, Bool.false_eq_true, if_false]
      by_cases hj : j = job.jobId
      · subst hj
        split <;> simp [getFailCount_set_self]
      · split <;> simp [getFailCount_set_ne st.failedJobs job.jobId j _ hj]

/-- A selected job was eligible: its failure count is below the bound. -/
theorem processNextJob_selected_lt (mr : Nat) (st : AutoState) (jobs : List BurnJob)
    (burnOK : String → Bool) (j : String)
    (h : (processNextJob mr st jobs burnOK).2.1 = some j) :
    getFailCount st.failedJobs j < mr := by
  cases hl : (sortJobs jobs).filter (eligible mr st) with
  | nil =>
    unfold processNextJob at h
    rw [hl] at h
    simp at h
  | cons job rest =>
    have hsel := processNextJob_sel mr st jobs burnOK job rest hl
    rw [hsel] at h
    have hj : j = job.jobId := (Option.some.inj h).symm
    have hmem : job ∈ (sortJobs jobs).filter (eligible mr st) := by
      rw [hl]
      exact List.mem_cons_self _ _
    have helig := (List.mem_filter.mp hmem).2
    simp only [eligible, Bool.and_eq_true, decide_eq_true_eq] at helig
    exact hj ▸ helig.2

/-- C5: the retry policy.
(1) The `executeAutomate` resubmission: a `failed` status snapshot is
rewritten into the pending set exactly when its retry count is below 3
(`maxRetries`), with status reset to `"pending"` and the retry count
incremented; a snapshot at or past the bound (or without a count — in
JavaScript `undefined < 3` is false) is never requeued.
(2) In the automation loop, a pass only ever selects a job whose in-memory
failure count is below `maxRetries`, counts never decrease, and therefore a
job whose count has reached the bound is excluded from every future
polling pass of the run.
(3) When a selected job's burn fails and its count reaches the bound, that
pass archives it as permanently failed: the terminal `failed` record is
written to `completed/` and `archive/` and the descriptor is deleted from
the pending set. -/
theorem C5_retry_policy :
    (∀ (status : StatusRecord) (now : String),
      (match requeueFailedJob status now with
       | some r => status.status = "failed" ∧ jsLtUndef status.retryCount 3 = true ∧
           r.status = "pending" ∧ r.retryCount = some (status.retryCount.getD 0 + 1) ∧
           r.jobId = status.jobId
       | none => ¬ (status.status = "failed" ∧ jsLtUndef status.retryCount 3 = true))) ∧
    (∀ (mr : Nat) (st : AutoState) (j : String),
      mr ≤ getFailCount st.failedJobs j →
      ∀ (passes : List (List BurnJob × (String → Bool))),
        some j ∉ runAutomation mr st passes) ∧
    (∀ (mr : Nat) (st : AutoState) (jobs : List BurnJob) (burnOK : String → Bool)
        (j : String),
      (processNextJob mr st jobs burnOK).2.1 = some j →
      burnOK j = false →
      mr ≤ getFailCount st.failedJobs j + 1 →
      (processNextJob mr st jobs burnOK).2.2 =
        [.completedRecord j .failed, .archiveRecord j .failed, .deletePending j]) := by
  refine ⟨?_, ?_, ?_⟩
  · intro status now
    by_cases h : status.status = "failed" ∧ jsLtUndef status.retryCount 3 = true
    · have : requeueFailedJob status now = some { status with
          status := "pending"
          retryCount := some (status.retryCount.getD 0 + 1)
          retriedAt := some now } := by
        simp [requeueFailedJob, h.1, h.2]
      rw [this]
      exact ⟨h.1, h.2, rfl, rfl, rfl⟩
    · have hnone : requeueFailedJob status now = none := by
        unfold requeueFailedJob
        rcases not_and_or.mp h with h' | h'
        · rw [if_neg]
          simp [h']
        · rw [if_neg]
          simp [h']
      rw [hnone]
      exact h
  · intro mr st j hge passes
    induction passes generalizing st with
    | nil => simp [runAutomation]
    | cons pass rest ih =>
      obtain ⟨jobs, burnOK⟩ := pass
      simp only [runAutomation, List.mem_cons]
      push_neg
      constructor
      · intro hsel
        have := processNextJob_selected_lt mr st jobs burnOK j hsel.symm
        omega
      · exact ih _ (le_trans hge (processNextJob_fail_mono mr st jobs burnOK j))
  · intro mr st jobs burnOK j hsel hfail hge
    cases hl : (sortJobs jobs).filter (eligible mr st) with
    | nil =>
      unfold processNextJob at hsel
      rw [hl] at hsel
      simp at hsel
    | cons job rest =>
      have hs := processNextJob_sel mr st jobs burnOK job rest hl
      rw [hs] at hsel
      have hj : j = job.jobId := (Option.some.inj hsel).symm
      subst hj
      unfold processNextJob
      rw [hl]
      simp only [hfail, Bool.false_eq_true, if_false]
      simp [hge]

/-- A `failed` status snapshot with two recorded retries. -/
def statusJ5twice : StatusRecord :=
  { jobId := "J5", status := "failed", retryCount := some 2, retriedAt := none }

/-- A `failed` status snapshot without a `retryCount` field (the snapshots
`updateJobStatus` writes carry none). -/
def statusJ5noCount : StatusRecord :=
  { jobId := "J5", status := "failed", retryCount := none, retriedAt := none }

/-- C5 witness: with the default bound 3, a status snapshot at retry count
2 is requeued as pending with count 3; one lacking a retry count is not;
and a job whose in-memory failure count already reached 3 is never selected
over a three-pass run that keeps listing it. -/
theorem C5_retry_policy_witness :
    (requeueFailedJob statusJ5twice "T9").isSome = true ∧
    requeueFailedJob statusJ5noCount "T9" = none ∧
    some "J5" ∉ runAutomation 3 { processedJobs := [], failedJobs := [("J5", 3)] }
      [([jobJ1], fun _ => true), ([jobJ1], fun _ => false), ([], fun _ => true)] := by
  refine ⟨?_, ?_, ?_⟩
  · have h := C5_retry_policy.1 statusJ5twice "T9"
    revert h
    cases hr : requeueFailedJob statusJ5twice "T9"
    · intro h
      exact absurd ⟨rfl, by decide⟩ h
    · intro _
      rfl
  · have h := C5_retry_policy.1 statusJ5noCount "T9"
    revert h
    cases hr : requeueFailedJob statusJ5noCount "T9"
    · intro _
      rfl
    · intro h
      exact absurd h.2.1 (by decide)
  · exact C5_retry_policy.2.1 3 _ "J5" (by decide) _

end DiscBurn
